import Mathlib

/-!
Shallow embedding of `src/app.py` (Ragify, a Streamlit RAG chatbot).

The program is a single script whose `main` is re-executed on every user
interaction ("pass").  Session state persisting across passes is
`st.session_state` with keys `messages`, `is_generating`,
`pending_user_text`.  The external collaborators (Streamlit widgets, the
PDF loader, the Gemini backend) are modelled as explicit inputs of a pass:
the sidebar text, the clear-button click, the chat-input submission, the
environment variables, whether the PDF file exists, the extracted page
contents, and the generation backend as a function from the assembled
message list to either a reply content string or an exception detail
string (the Python `try`/`except` becomes `Except`).
-/

/-- A langchain message as used by `_build_langchain_messages`:
`SystemMessage`, `HumanMessage` or `AIMessage`, each carrying content. -/
inductive LCMessage where
  | system (content : String)
  | human (content : String)
  | ai (content : String)
deriving DecidableEq, Repr

/-- One entry of `st.session_state.messages`: a Python dict whose `role`
and `content` keys may each be absent (`m.get` returns `None`). -/
structure ChatEntry where
  role : Option String
  content : Option String
deriving DecidableEq, Repr

/-- The dict `{"role": "user", "content": t}` appended at line 179. -/
def userTurn (t : String) : ChatEntry := ⟨some "user", some t⟩

/-- The dict `{"role": "assistant", "content": t}` appended at line 204. -/
def assistantTurn (t : String) : ChatEntry := ⟨some "assistant", some t⟩

/-- The persisted `st.session_state` fields initialized at lines 125-130. -/
structure SessionState where
  messages : List ChatEntry
  is_generating : Bool
  pending_user_text : Option String
deriving DecidableEq, Repr

/-- The state produced by the initialization block when no key exists yet
(first pass of a session). -/
def initState : SessionState :=
  { messages := [], is_generating := false, pending_user_text := none }

/-- Python `s.strip()`: drop leading and trailing whitespace, modelled
structurally on the character list so it evaluates by kernel reduction. -/
def pyStrip (s : String) : String :=
  ⟨((s.data.dropWhile Char.isWhitespace).reverse.dropWhile Char.isWhitespace).reverse⟩

/-- Python `a or b` where `a` is an optional string (`os.getenv` result:
`None` when unset) and `b` a string: the first operand wins when it is
truthy, i.e. a nonempty string. -/
def pyOrStr (a : Option String) (b : String) : String :=
  match a with
  | some s => if s = "" then b else s
  | none => b

/-- `_get_gemini_api_key` (src/app.py lines 66-70): the trimmed user input
wins when nonempty, otherwise
`(os.getenv("GOOGLE_API_KEY") or os.getenv("GEMINI_API_KEY") or "").strip()`. -/
def get_gemini_api_key (user_input_key : String)
    (google_key gemini_key : Option String) : String :=
  let key := pyStrip user_input_key
  if key ≠ "" then key
  else pyStrip (pyOrStr google_key (pyOrStr gemini_key ""))

/-- Python `sep.join(xs)`. -/
def pyJoin (sep : String) : List String → String
  | [] => ""
  | [x] => x
  | x :: y :: xs => x ++ sep ++ pyJoin sep (y :: xs)

/-- `_load_pdf_context_text` (src/app.py lines 73-77) applied to the
extracted `page_content` of each loaded document:
`"\n\n".join(d.page_content for d in docs).strip()`. -/
def load_pdf_context_text (page_contents : List String) : String :=
  pyStrip (pyJoin "\n\n" page_contents)

/-- The module constant `SYSTEM_PROMPT` (src/app.py lines 14-58). -/
def SYSTEM_PROMPT : String :=
  "### System Instructions: RAG & Retriever Expert\n"
    ++ "\n"
    ++ "Role:\n"
    ++ "- You are a knowledgeable, precise assistant focused on Retrieval-Augmented Generation (RAG) and retrievers.\n"
    ++ "- Use a clear, professional, and concise tone (not overly casual or chatty).\n"
    ++ "\n"
    ++ "Behavior:\n"
    ++ "1. Understand the user query:\n"
    ++ "   - Detect whether they are asking about retriever selection, RAG concepts, or implementation details.\n"
    ++ "   - Infer where possible:\n"
    ++ "     - Dataset type (text, PDF, CSV, structured DB, knowledge base)\n"
    ++ "     - Query type (semantic vs keyword vs structured)\n"
    ++ "     - Goals (accuracy, latency, scalability, multi-domain, cost)\n"
    ++ "\n"
    ++ "2. When recommending a retriever (or comparing retrievers), you MUST format the main recommendation using EXACTLY the structure below, with no extra bullet markers or headings inside it:\n"
    ++ "\n"
    ++ "\x27\x27\x27\n"
    ++ "When recommending a retriever:\n"
    ++ "\n"
    ++ "Recommended Retriever: <retriever name>\n"
    ++ "Reason:\n"
    ++ "<why this retriever is best for the project, written as one or more full sentences on the following line(s)>\n"
    ++ "Secondary Options: \n"
    ++ "- <Option 1> (pros/cons)\n"
    ++ "- <Option 2> (pros/cons)\n"
    ++ "Implementation Notes: <pre-processing or configuration tips>\n"
    ++ "\x27\x27\x27\n"
    ++ "\n"
    ++ "- Replace the angle-bracket sections with concrete content.\n"
    ++ "- You may add short explanation before or after this block if needed, but the block itself must appear exactly once and remain in this format.\n"
    ++ "\n"
    ++ "3. Answer RAG questions:\n"
    ++ "   - Explain concepts clearly and technically, keeping the tone neutral and informative.\n"
    ++ "   - When helpful, briefly mention:\n"
    ++ "     - RAG architectures, pipelines, and trade-offs\n"
    ++ "     - Retriever types (dense, sparse, hybrid, BM25, etc.) and their use cases\n"
    ++ "   - Keep responses focused and avoid unnecessary storytelling or metaphors.\n"
    ++ "\n"
    ++ "4. General rules:\n"
    ++ "   - Be explicit about assumptions.\n"
    ++ "   - Do NOT mention that you are using a PDF, knowledge base, or external document; answer as if using your own domain knowledge.\n"
    ++ "   - Do NOT include section/page-style citations such as \"(Section 3.7.2)\", page numbers, or similar references.\n"
    ++ "   - If the user asks about topics clearly outside RAG / retrievers (for example, general acronyms, unrelated ML concepts, or tooling that is not about retrieval), say plainly that you are a specialist assistant for RAG and retrievers and that this question is outside your scope.\n"
    ++ "   - If you do not have enough information to answer within that RAG/retriever scope, say so plainly and indicate what additional details you would need, without referring to any PDF or its sections.\n"
    ++ "   - Prefer concise, structured outputs over long paragraphs."

/-- `PDF_PATH.name` (src/app.py line 62). -/
def PDF_NAME : String := "RAG_Complete_Knowledge_Base.pdf"

/-- Content of the second `SystemMessage` (src/app.py lines 87-93). -/
def contextSystemContent (pdf_context_text : String) : String :=
  "You must use the following PDF knowledge base as grounding context for your answers. "
    ++ "If something is not covered there, say so and suggest what info would be needed.\n\n"
    ++ "PDF knowledge base (" ++ PDF_NAME ++ "):\n" ++ pdf_context_text

/-- The history-entry translation of the loop at src/app.py lines 96-102:
`role == "user"` becomes a `HumanMessage`, `role == "assistant"` an
`AIMessage` (content defaulting to `""` when absent), anything else is
skipped. -/
def entryToLC (e : ChatEntry) : Option LCMessage :=
  let content := e.content.getD ""
  if e.role = some "user" then some (LCMessage.human content)
  else if e.role = some "assistant" then some (LCMessage.ai content)
  else none

/-- `_build_langchain_messages` (src/app.py lines 80-105). -/
def build_langchain_messages (chat_history : List ChatEntry)
    (user_text : String) (pdf_context_text : String) : List LCMessage :=
  [LCMessage.system SYSTEM_PROMPT,
   LCMessage.system (contextSystemContent pdf_context_text)]
    ++ chat_history.filterMap entryToLC
    ++ [LCMessage.human user_text]

/-- `_generate_assistant_reply` (src/app.py lines 108-115): the backend is
a function from the message list to `Except` (exception detail on error,
raw reply content on success); the reply content is stripped
(`(getattr(reply, "content", "") or "").strip()`). -/
def generate_assistant_reply (backend : List LCMessage → Except String String)
    (messages : List LCMessage) : Except String String :=
  (backend messages).map pyStrip

/-- The fixed fallback used when the stripped reply is empty
(src/app.py line 198). -/
def FALLBACK_TEXT : String :=
  "I couldn’t generate a response. Try rephrasing your question."

/-- The fixed head of the error message built at src/app.py line 200. -/
def MODEL_ERROR_HEAD : String :=
  "Something went wrong while calling the model: `"

/-- The assistant text committed at src/app.py lines 197-200: fallback on
an empty stripped reply, the fixed error string on an exception. -/
def commit_reply_text (result : Except String String) : String :=
  match result with
  | Except.ok t => if t = "" then FALLBACK_TEXT else t
  | Except.error e => MODEL_ERROR_HEAD ++ e ++ "`"

/-- The per-pass external inputs that do not change between the two passes
of one submission cycle: sidebar api-key text, the two environment
variables, whether the PDF file exists, and its extracted page contents. -/
structure Env where
  api_key_input : String
  google_key : Option String
  gemini_key : Option String
  pdf_exists : Bool
  pdf_pages : List String
deriving Repr

/-- The pending-input processing tail of `main` (src/app.py lines
174-209): return when no truthy pending text; otherwise append the user
turn, assemble messages from `st.session_state.messages[:-1]` (the
conversation before the append), call the backend inside `try`, commit
the assistant turn, clear both flags.  The second component records the
message lists sent to the backend during the pass. -/
def processPending (backend : List LCMessage → Except String String)
    (pdf_context_text : String) (s : SessionState) :
    SessionState × List (List LCMessage) :=
  match s.pending_user_text with
  | none => (s, [])
  | some pending_text =>
    if pending_text = "" then (s, [])
    else
      let lc_messages := build_langchain_messages s.messages pending_text pdf_context_text
      let assistant_text := commit_reply_text (generate_assistant_reply backend lc_messages)
      ({ messages := s.messages ++ [userTurn pending_text, assistantTurn assistant_text],
         is_generating := false,
         pending_user_text := none },
       [lc_messages])

/-- One full pass of `main` (src/app.py lines 118-209) from session state
`s`.  `clear_clicked` is the sidebar clear button: it pops the `messages`
key and reruns, so the next initialization restores an empty list (lines
141-143 with 125-126).  `chat_input_text` is the chat-input submission;
the widget is disabled while `is_generating` (line 166).  An empty api
key or a missing PDF stops the pass (`st.stop`, lines 148-154) before the
chat input.  A truthy submission only records the pending text, sets
`is_generating` and reruns (lines 168-172); generation happens in
`processPending` on the follow-up pass. -/
def mainPass (env : Env) (backend : List LCMessage → Except String String)
    (clear_clicked : Bool) (chat_input_text : Option String)
    (s : SessionState) : SessionState × List (List LCMessage) :=
  if clear_clicked then
    ({ s with messages := [] }, [])
  else
    let api_key := get_gemini_api_key env.api_key_input env.google_key env.gemini_key
    if api_key = "" then (s, [])
    else if env.pdf_exists = false then (s, [])
    else
      let pdf_context_text := load_pdf_context_text env.pdf_pages
      let user_text := if s.is_generating then none else chat_input_text
      match user_text with
      | some t =>
        if t ≠ "" then
          ({ s with pending_user_text := some t, is_generating := true }, [])
        else
          processPending backend pdf_context_text s
      | none => processPending backend pdf_context_text s

/-- Whether the history loop of `_build_langchain_messages` keeps this
entry: its `role` is `"user"` or `"assistant"`. -/
def knownRole (e : ChatEntry) : Bool :=
  e.role == some "user" || e.role == some "assistant"

/-- The message produced for a kept history entry: `HumanMessage` for the
`"user"` role, `AIMessage` otherwise, content defaulting to `""`. -/
def turnToLC (e : ChatEntry) : LCMessage :=
  if e.role = some "user" then LCMessage.human (e.content.getD "")
  else LCMessage.ai (e.content.getD "")

/-- The flag/pending coupling of claim C4: `is_generating` is set exactly
when a nonempty pending text awaits commitment. -/
def flagsInv (s : SessionState) : Prop :=
  s.is_generating = true ↔ ∃ t, s.pending_user_text = some t ∧ t ≠ ""

/-- Claim C9 as stated: each extracted text unit trimmed of
leading/trailing whitespace, then joined in source order by a blank-line
separator. -/
def groundingContextClaimC9 (units : List String) : String :=
  pyJoin "\n\n" (units.map pyStrip)

/-- Claim C9 amended: the units joined in source order by a blank-line
separator, with the whole concatenation (not each unit) trimmed of
leading and trailing whitespace. -/
def groundingContextAmendedC9 (units : List String) : String :=
  pyStrip (String.intercalate "\n\n" units)

/-- Claim C5 as stated: the trimmed user-supplied value when nonempty
after trimming; otherwise the first non-empty of the two environment
variables, `GOOGLE_API_KEY` then `GEMINI_API_KEY`; otherwise `""`. -/
def resolveClaimC5 (user_value : String) (google_key gemini_key : Option String) : String :=
  if pyStrip user_value ≠ "" then pyStrip user_value
  else if google_key.getD "" ≠ "" then google_key.getD ""
  else if gemini_key.getD "" ≠ "" then gemini_key.getD ""
  else ""

/-- Claim C5 amended: as stated, except that the value taken from the
first non-empty environment variable is itself trimmed before being
returned (so a whitespace-only `GOOGLE_API_KEY` yields `""` without
falling back to `GEMINI_API_KEY`). -/
def resolveAmendedC5 (user_value : String) (google_key gemini_key : Option String) : String :=
  if pyStrip user_value ≠ "" then pyStrip user_value
  else if google_key.getD "" ≠ "" then pyStrip (google_key.getD "")
  else if gemini_key.getD "" ≠ "" then pyStrip (gemini_key.getD "")
  else ""

theorem pyStrip_empty : pyStrip "" = "" := rfl

theorem filterMap_entryToLC (l : List ChatEntry) :
    l.filterMap entryToLC = (l.filter knownRole).map turnToLC := by
  induction l with
  | nil => rfl
  | cons e l ih =>
    by_cases hu : e.role = some "user"
    · simp [List.filterMap_cons, List.filter_cons, entryToLC, knownRole, turnToLC, hu, ih]
    · by_cases ha : e.role = some "assistant"
      · simp [List.filterMap_cons, List.filter_cons, entryToLC, knownRole, turnToLC, hu, ha, ih]
      · simp [List.filterMap_cons, List.filter_cons, entryToLC, knownRole, hu, ha, ih]

theorem intercalate_go_eq_pyJoin (s acc : String) (as : List String) :
    String.intercalate.go acc s as = pyJoin s (acc :: as) := by
  induction as generalizing acc with
  | nil => rfl
  | cons a as ih =>
    rw [String.intercalate.go, ih]
    cases as with
    | nil => simp [pyJoin]
    | cons b bs => simp [pyJoin, String.append_assoc]

theorem pyJoin_eq_intercalate (s : String) (l : List String) :
    pyJoin s l = String.intercalate s l := by
  cases l with
  | nil => rfl
  | cons a as => rw [String.intercalate, intercalate_go_eq_pyJoin]

/-- Claim C3: for every history of N turns whose roles are `"user"` or
`"assistant"` (content present), every new user text and every grounding
string, `build_langchain_messages` returns exactly N+3 messages in fixed
order: the fixed-instructions system message, the grounding-context
system message, the N history turns with role and content preserved
verbatim and in order, then a final user-role message with the new user
text. -/
theorem build_messages_preserves_history (chat_history : List ChatEntry)
    (user_text pdf_context_text : String)
    (hrole : ∀ e ∈ chat_history, e.role = some "user" ∨ e.role = some "assistant")
    (hcontent : ∀ e ∈ chat_history, e.content ≠ none) :
    build_langchain_messages chat_history user_text pdf_context_text
      = [LCMessage.system SYSTEM_PROMPT,
         LCMessage.system (contextSystemContent pdf_context_text)]
          ++ chat_history.map turnToLC
          ++ [LCMessage.human user_text]
    ∧ (build_langchain_messages chat_history user_text pdf_context_text).length
        = chat_history.length + 3
    ∧ ∀ role content, turnToLC ⟨some role, some content⟩
        = if role = "user" then LCMessage.human content else LCMessage.ai content := by
  have hfilter : chat_history.filter knownRole = chat_history := by
    rw [List.filter_eq_self]
    intro e he
    rcases hrole e he with h | h <;> simp [knownRole, h]
  have hmain : build_langchain_messages chat_history user_text pdf_context_text
      = [LCMessage.system SYSTEM_PROMPT,
         LCMessage.system (contextSystemContent pdf_context_text)]
          ++ chat_history.map turnToLC
          ++ [LCMessage.human user_text] := by
    rw [build_langchain_messages, filterMap_entryToLC, hfilter]
  refine ⟨hmain, ?_, ?_⟩
  · rw [hmain]
    simp [List.length_append]
  · intro role content
    by_cases h : role = "user" <;> simp [turnToLC, h]

theorem build_messages_preserves_history_witness :
    (∀ e ∈ [userTurn "hello", assistantTurn "hi there"],
        e.role = some "user" ∨ e.role = some "assistant")
    ∧ (∀ e ∈ [userTurn "hello", assistantTurn "hi there"], e.content ≠ none)
    ∧ (build_langchain_messages [userTurn "hello", assistantTurn "hi there"] "q" "ctx"
        = [LCMessage.system SYSTEM_PROMPT,
           LCMessage.system (contextSystemContent "ctx")]
            ++ [userTurn "hello", assistantTurn "hi there"].map turnToLC
            ++ [LCMessage.human "q"]
      ∧ (build_langchain_messages [userTurn "hello", assistantTurn "hi there"] "q" "ctx").length
          = [userTurn "hello", assistantTurn "hi there"].length + 3
      ∧ ∀ role content, turnToLC ⟨some role, some content⟩
          = if role = "user" then LCMessage.human content else LCMessage.ai content) :=
  ⟨by decide, by decide,
   build_messages_preserves_history [userTurn "hello", assistantTurn "hi there"] "q" "ctx"
     (by decide) (by decide)⟩

/-- Claim C10: `build_langchain_messages` is total over arbitrary history
entries: it always produces the two system messages, the kept history
entries and the final user message; an entry whose role is neither
`"user"` nor `"assistant"` is silently omitted (the `filter`), and an
entry with a missing content field behaves exactly like one with empty
content. -/
theorem build_messages_total (chat_history : List ChatEntry)
    (user_text pdf_context_text : String) :
    build_langchain_messages chat_history user_text pdf_context_text
      = [LCMessage.system SYSTEM_PROMPT,
         LCMessage.system (contextSystemContent pdf_context_text)]
          ++ (chat_history.filter knownRole).map turnToLC
          ++ [LCMessage.human user_text]
    ∧ (∀ r, entryToLC ⟨r, none⟩ = entryToLC ⟨r, some ""⟩)
    ∧ (∀ e, knownRole e = false → entryToLC e = none) := by
  refine ⟨?_, ?_, ?_⟩
  · rw [build_langchain_messages, filterMap_entryToLC]
  · intro r
    rfl
  · intro e he
    have hu : ¬ e.role = some "user" := by
      intro h
      simp [knownRole, h] at he
    have ha : ¬ e.role = some "assistant" := by
      intro h
      simp [knownRole, h] at he
    simp [entryToLC, hu, ha]

/-- Claim C9 as stated is false: with extracted units `["a ", "b"]` the
code joins the raw units and trims only the whole concatenation, giving
"a \n\nb" instead of "a\n\nb". -/
theorem grounding_context_claim_counterexample :
    load_pdf_context_text ["a ", "b"] ≠ groundingContextClaimC9 ["a ", "b"] := by decide

/-- Claim C9 amended: `load_pdf_context_text` returns the extracted units
joined in source order by a blank-line separator, with the whole
concatenation (not each unit) trimmed of leading/trailing whitespace. -/
theorem grounding_context_amended (units : List String) :
    load_pdf_context_text units = groundingContextAmendedC9 units := by
  rw [load_pdf_context_text, groundingContextAmendedC9, pyJoin_eq_intercalate]

/-- Claim C5 as stated is false: with no user value and
`GOOGLE_API_KEY = " x "`, the claim returns the raw variable value
`" x "` but the code returns the trimmed `"x"`. -/
theorem resolver_claim_counterexample :
    get_gemini_api_key "" (some " x ") none ≠ resolveClaimC5 "" (some " x ") none := by decide

/-- Claim C5 amended: the resolver returns the trimmed user-supplied
value when it is nonempty after trimming; otherwise the trimmed value of
the first non-empty of `GOOGLE_API_KEY` then `GEMINI_API_KEY` (so a
whitespace-only variable yields `""` without falling back to the next);
otherwise the empty string. -/
theorem resolver_amended (user_value : String) (google_key gemini_key : Option String) :
    get_gemini_api_key user_value google_key gemini_key
      = resolveAmendedC5 user_value google_key gemini_key := by
  rw [get_gemini_api_key, resolveAmendedC5]
  by_cases hu : pyStrip user_value ≠ ""
  · simp [hu]
  · simp only [hu, if_false, if_neg hu]
    cases google_key with
    | some g =>
      by_cases hg : g = ""
      · cases gemini_key with
        | some m =>
          by_cases hm : m = ""
          · simp [pyOrStr, hg, hm, pyStrip_empty]
          · simp [pyOrStr, hg, hm]
        | none => simp [pyOrStr, hg, pyStrip_empty]
      · simp [pyOrStr, hg]
    | none =>
      cases gemini_key with
      | some m =>
        by_cases hm : m = ""
        · simp [pyOrStr, hm, pyStrip_empty]
        · simp [pyOrStr, hm]
      | none => simp [pyOrStr, pyStrip_empty]

/-- Claim C4: in every observable snapshot — after initialization and
after each completed pass — `is_generating` is true exactly when
`pending_user_text` holds a not-yet-committed nonempty text: the
invariant holds initially and is preserved by every pass. -/
theorem flags_invariant :
    flagsInv initState
    ∧ ∀ (env : Env) (backend : List LCMessage → Except String String)
        (clear_clicked : Bool) (chat_input_text : Option String)
        (s : SessionState), flagsInv s →
          flagsInv (mainPass env backend clear_clicked chat_input_text s).1 := by
  constructor
  · simp [flagsInv, initState]
  · intro env backend clear_clicked chat_input_text s hs
    cases hc : clear_clicked with
    | true => simpa [mainPass, flagsInv] using hs
    | false =>
      by_cases hk : get_gemini_api_key env.api_key_input env.google_key env.gemini_key = ""
      · simpa [mainPass, hk, flagsInv] using hs
      · by_cases hp : env.pdf_exists = false
        · simpa [mainPass, hk, hp, flagsInv] using hs
        · have hproc : flagsInv (processPending backend
              (load_pdf_context_text env.pdf_pages) s).1 := by
            cases hpend : s.pending_user_text with
            | none => simpa [processPending, hpend, flagsInv] using hs
            | some t =>
              by_cases ht : t = ""
              · simpa [processPending, hpend, ht, flagsInv] using hs
              · simp [processPending, hpend, ht, flagsInv]
          cases hg : s.is_generating with
          | true => simpa [mainPass, hk, hp, hg] using hproc
          | false =>
            cases hin : chat_input_text with
            | none => simpa [mainPass, hk, hp, hg] using hproc
            | some t =>
              by_cases ht : t = ""
              · simpa [mainPass, hk, hp, hg, ht] using hproc
              · simp [mainPass, hk, hp, hg, ht, flagsInv]

theorem flags_invariant_witness :
    flagsInv initState
    ∧ flagsInv (mainPass ⟨"k", none, none, true, ["doc"]⟩
        (fun _ => Except.ok "reply") false (some "hi") initState).1 :=
  ⟨flags_invariant.1,
   flags_invariant.2 ⟨"k", none, none, true, ["doc"]⟩
     (fun _ => Except.ok "reply") false (some "hi") initState flags_invariant.1⟩

/-- Claim C7: from every prior state (and whatever the chat input), the
clear-conversation event empties the Conversation and leaves
`is_generating` and `pending_user_text` unchanged; no backend call is
made. -/
theorem clear_conversation_resets (env : Env)
    (backend : List LCMessage → Except String String)
    (chat_input_text : Option String) (s : SessionState) :
    mainPass env backend true chat_input_text s
      = ({ messages := [],
           is_generating := s.is_generating,
           pending_user_text := s.pending_user_text }, []) := rfl

/-- Claim C8: running the pass twice with no new event in between (no
clear click, no chat-input submission) leaves the session state exactly
as after the first pass and issues no backend call on the second run. -/
theorem pass_idempotent (env : Env)
    (backend : List LCMessage → Except String String) (s : SessionState) :
    mainPass env backend false none (mainPass env backend false none s).1
      = ((mainPass env backend false none s).1, []) := by
  by_cases hk : get_gemini_api_key env.api_key_input env.google_key env.gemini_key = ""
  · simp [mainPass, hk]
  · by_cases hp : env.pdf_exists = false
    · simp [mainPass, hk, hp]
    · cases hpend : s.pending_user_text with
      | none => simp [mainPass, processPending, hk, hp, hpend]
      | some t =>
        by_cases ht : t = ""
        · simp [mainPass, processPending, hk, hp, hpend, ht]
        · simp [mainPass, processPending, hk, hp, hpend, ht]

/-- Claim C1: an accepted submission from Idle, driven through the
capture pass and the self-triggered follow-up pass, grows the
Conversation by exactly one User Turn carrying the submitted text
followed by exactly one Assistant Turn; the capture pass calls the
backend zero times and changes no conversation entry, the follow-up pass
calls it exactly once, and the Prompt Assembler receives as history the
Conversation minus the just-appended user turn (i.e. the pre-submission
messages); the cycle ends with both flags cleared. -/
theorem submit_full_cycle (env : Env)
    (backend : List LCMessage → Except String String)
    (s : SessionState) (t : String)
    (hflag : s.is_generating = false) (hpend : s.pending_user_text = none)
    (ht : t ≠ "")
    (hkey : get_gemini_api_key env.api_key_input env.google_key env.gemini_key ≠ "")
    (hpdf : env.pdf_exists = true) :
    (mainPass env backend false (some t) s).2 = []
    ∧ (mainPass env backend false (some t) s).1.messages = s.messages
    ∧ (mainPass env backend false none (mainPass env backend false (some t) s).1).1.messages
        = s.messages
            ++ [userTurn t,
                assistantTurn (commit_reply_text (generate_assistant_reply backend
                  (build_langchain_messages s.messages t (load_pdf_context_text env.pdf_pages))))]
    ∧ (mainPass env backend false none (mainPass env backend false (some t) s).1).2
        = [build_langchain_messages s.messages t (load_pdf_context_text env.pdf_pages)]
    ∧ (mainPass env backend false none (mainPass env backend false (some t) s).1).1.is_generating
        = false
    ∧ (mainPass env backend false none (mainPass env backend false (some t) s).1).1.pending_user_text
        = none := by
  have hcap : mainPass env backend false (some t) s
      = ({ s with pending_user_text := some t, is_generating := true }, []) := by
    simp [mainPass, hkey, hpdf, hflag, ht]
  rw [hcap]
  refine ⟨rfl, rfl, ?_, ?_, ?_, ?_⟩ <;>
    simp [mainPass, processPending, hkey, hpdf, ht]

theorem submit_full_cycle_witness :
    initState.is_generating = false
    ∧ initState.pending_user_text = none
    ∧ "What is BM25?" ≠ ""
    ∧ get_gemini_api_key "k" none none ≠ ""
    ∧ (true : Bool) = true
    ∧ ((mainPass ⟨"k", none, none, true, ["doc"]⟩ (fun _ => Except.ok "BM25 is a ranking function.")
          false (some "What is BM25?") initState).2 = []
      ∧ (mainPass ⟨"k", none, none, true, ["doc"]⟩ (fun _ => Except.ok "BM25 is a ranking function.")
          false (some "What is BM25?") initState).1.messages = initState.messages
      ∧ (mainPass ⟨"k", none, none, true, ["doc"]⟩ (fun _ => Except.ok "BM25 is a ranking function.")
          false none
          (mainPass ⟨"k", none, none, true, ["doc"]⟩ (fun _ => Except.ok "BM25 is a ranking function.")
            false (some "What is BM25?") initState).1).1.messages
          = initState.messages
              ++ [userTurn "What is BM25?",
                  assistantTurn (commit_reply_text (generate_assistant_reply
                    (fun _ => Except.ok "BM25 is a ranking function.")
                    (build_langchain_messages initState.messages "What is BM25?"
                      (load_pdf_context_text ["doc"]))))]
      ∧ (mainPass ⟨"k", none, none, true, ["doc"]⟩ (fun _ => Except.ok "BM25 is a ranking function.")
          false none
          (mainPass ⟨"k", none, none, true, ["doc"]⟩ (fun _ => Except.ok "BM25 is a ranking function.")
            false (some "What is BM25?") initState).1).2
          = [build_langchain_messages initState.messages "What is BM25?"
              (load_pdf_context_text ["doc"])]
      ∧ (mainPass ⟨"k", none, none, true, ["doc"]⟩ (fun _ => Except.ok "BM25 is a ranking function.")
          false none
          (mainPass ⟨"k", none, none, true, ["doc"]⟩ (fun _ => Except.ok "BM25 is a ranking function.")
            false (some "What is BM25?") initState).1).1.is_generating = false
      ∧ (mainPass ⟨"k", none, none, true, ["doc"]⟩ (fun _ => Except.ok "BM25 is a ranking function.")
          false none
          (mainPass ⟨"k", none, none, true, ["doc"]⟩ (fun _ => Except.ok "BM25 is a ranking function.")
            false (some "What is BM25?") initState).1).1.pending_user_text = none) :=
  ⟨rfl, rfl, by decide, by decide, rfl,
   submit_full_cycle ⟨"k", none, none, true, ["doc"]⟩
     (fun _ => Except.ok "BM25 is a ranking function.") initState "What is BM25?"
     rfl rfl (by decide) (by decide) rfl⟩

/-- Claim C2: when the backend raises on the assembled messages, the pass
does not crash (the embedding is total and the result below is reached),
the committed Assistant Turn's content starts with the fixed error-head
string and contains the failure detail, and the cycle still completes:
the pending text is cleared and `is_generating` ends false. -/
theorem backend_failure_handled (env : Env)
    (backend : List LCMessage → Except String String)
    (s : SessionState) (t detail : String)
    (hpend : s.pending_user_text = some t) (ht : t ≠ "")
    (hkey : get_gemini_api_key env.api_key_input env.google_key env.gemini_key ≠ "")
    (hpdf : env.pdf_exists = true)
    (hfail : backend (build_langchain_messages s.messages t (load_pdf_context_text env.pdf_pages))
        = Except.error detail) :
    (mainPass env backend false none s).1.messages
      = s.messages ++ [userTurn t, assistantTurn (MODEL_ERROR_HEAD ++ detail ++ "`")]
    ∧ (∃ rest, MODEL_ERROR_HEAD ++ detail ++ "`" = MODEL_ERROR_HEAD ++ rest)
    ∧ (∃ pre post, MODEL_ERROR_HEAD ++ detail ++ "`" = pre ++ (detail ++ post))
    ∧ (mainPass env backend false none s).1.pending_user_text = none
    ∧ (mainPass env backend false none s).1.is_generating = false := by
  refine ⟨?_, ⟨detail ++ "`", by rw [String.append_assoc]⟩,
    ⟨MODEL_ERROR_HEAD, "`", by rw [String.append_assoc]⟩, ?_, ?_⟩ <;>
    simp [mainPass, processPending, hkey, hpdf, hpend, ht, commit_reply_text,
      generate_assistant_reply, Except.map, hfail]

theorem backend_failure_handled_witness :
    ({ messages := [], is_generating := true,
       pending_user_text := some "hi" } : SessionState).pending_user_text = some "hi"
    ∧ "hi" ≠ ""
    ∧ get_gemini_api_key "k" none none ≠ ""
    ∧ (true : Bool) = true
    ∧ (fun (_ : List LCMessage) => (Except.error "quota exceeded" : Except String String))
        (build_langchain_messages [] "hi" (load_pdf_context_text ["doc"]))
        = Except.error "quota exceeded"
    ∧ ((mainPass ⟨"k", none, none, true, ["doc"]⟩ (fun _ => Except.error "quota exceeded")
          false none { messages := [], is_generating := true, pending_user_text := some "hi" }).1.messages
        = [] ++ [userTurn "hi", assistantTurn (MODEL_ERROR_HEAD ++ "quota exceeded" ++ "`")]
      ∧ (∃ rest, MODEL_ERROR_HEAD ++ "quota exceeded" ++ "`" = MODEL_ERROR_HEAD ++ rest)
      ∧ (∃ pre post, MODEL_ERROR_HEAD ++ "quota exceeded" ++ "`" = pre ++ ("quota exceeded" ++ post))
      ∧ (mainPass ⟨"k", none, none, true, ["doc"]⟩ (fun _ => Except.error "quota exceeded")
          false none { messages := [], is_generating := true, pending_user_text := some "hi" }).1.pending_user_text
          = none
      ∧ (mainPass ⟨"k", none, none, true, ["doc"]⟩ (fun _ => Except.error "quota exceeded")
          false none { messages := [], is_generating := true, pending_user_text := some "hi" }).1.is_generating
          = false) :=
  ⟨rfl, by decide, by decide, rfl, rfl,
   backend_failure_handled ⟨"k", none, none, true, ["doc"]⟩
     (fun _ => Except.error "quota exceeded")
     { messages := [], is_generating := true, pending_user_text := some "hi" }
     "hi" "quota exceeded" rfl (by decide) (by decide) rfl rfl⟩

/-- Claim C6: when the backend succeeds but its stripped reply is empty,
the pass commits an Assistant Turn whose content equals the fixed
fallback text exactly, through the same commit path as a successful
reply: one backend call, pending cleared, `is_generating` ends false. -/
theorem empty_reply_fallback (env : Env)
    (backend : List LCMessage → Except String String)
    (s : SessionState) (t raw : String)
    (hpend : s.pending_user_text = some t) (ht : t ≠ "")
    (hkey : get_gemini_api_key env.api_key_input env.google_key env.gemini_key ≠ "")
    (hpdf : env.pdf_exists = true)
    (hok : backend (build_langchain_messages s.messages t (load_pdf_context_text env.pdf_pages))
        = Except.ok raw)
    (hraw : pyStrip raw = "") :
    (mainPass env backend false none s).1.messages
      = s.messages ++ [userTurn t, assistantTurn FALLBACK_TEXT]
    ∧ (mainPass env backend false none s).2
        = [build_langchain_messages s.messages t (load_pdf_context_text env.pdf_pages)]
    ∧ (mainPass env backend false none s).1.pending_user_text = none
    ∧ (mainPass env backend false none s).1.is_generating = false := by
  refine ⟨?_, ?_, ?_, ?_⟩ <;>
    simp [mainPass, processPending, hkey, hpdf, hpend, ht, commit_reply_text,
      generate_assistant_reply, Except.map, hok, hraw]

theorem empty_reply_fallback_witness :
    ({ messages := [], is_generating := true,
       pending_user_text := some "hi" } : SessionState).pending_user_text = some "hi"
    ∧ "hi" ≠ ""
    ∧ get_gemini_api_key "k" none none ≠ ""
    ∧ (true : Bool) = true
    ∧ (fun (_ : List LCMessage) => (Except.ok "  " : Except String String))
        (build_langchain_messages [] "hi" (load_pdf_context_text ["doc"]))
        = Except.ok "  "
    ∧ pyStrip "  " = ""
    ∧ ((mainPass ⟨"k", none, none, true, ["doc"]⟩ (fun _ => Except.ok "  ")
          false none { messages := [], is_generating := true, pending_user_text := some "hi" }).1.messages
        = [] ++ [userTurn "hi", assistantTurn FALLBACK_TEXT]
      ∧ (mainPass ⟨"k", none, none, true, ["doc"]⟩ (fun _ => Except.ok "  ")
          false none { messages := [], is_generating := true, pending_user_text := some "hi" }).2
          = [build_langchain_messages [] "hi" (load_pdf_context_text ["doc"])]
      ∧ (mainPass ⟨"k", none, none, true, ["doc"]⟩ (fun _ => Except.ok "  ")
          false none { messages := [], is_generating := true, pending_user_text := some "hi" }).1.pending_user_text
          = none
      ∧ (mainPass ⟨"k", none, none, true, ["doc"]⟩ (fun _ => Except.ok "  ")
          false none { messages := [], is_generating := true, pending_user_text := some "hi" }).1.is_generating
          = false) :=
  ⟨rfl, by decide, by decide, rfl, rfl, by decide,
   empty_reply_fallback ⟨"k", none, none, true, ["doc"]⟩ (fun _ => Except.ok "  ")
     { messages := [], is_generating := true, pending_user_text := some "hi" }
     "hi" "  " rfl (by decide) (by decide) rfl rfl (by decide)⟩
